import Mathlib

/-!
Shallow embedding of `chroot/base.py` (`WithParentSkip`), the context manager
that forks a child process to run the body of a `with` block while the parent
skips it via an injected trace function, and transports exceptions from the
child back to the parent over a `multiprocessing` pipe.

The two processes are modelled separately, each as a pure function from its
inputs (outcomes of the hooks, results of the pipe primitives) to the ordered
list of observable actions it performs and its final fate.  Pipe sends may
fail with an `OSError` carrying an errno; the parent's `recv` may return a
message or raise `EOFError` when the channel is closed with nothing buffered.
-/

namespace Chroot

/-- Errno value `errno.EPIPE` tested by the guarded sentinel sends. -/
def EPIPE : Nat := 32

/-- Errno value `errno.ESHUTDOWN` tested by the guarded sentinel sends. -/
def ESHUTDOWN : Nat := 108

/-- A Python exception object as it travels through the module: whether it is
a `SystemExit` instance, its message, and the optional `__traceback_list__`
attribute (the pre-rendered `traceback.format_exc()` text) attached before it
is pickled and sent over the pipe. -/
structure ExcValue where
  isSystemExit : Bool
  message : String
  tracebackList : Option String
deriving DecidableEq, Repr

/-- The clean-exit sentinel `SystemExit()` sent by the child (base.py lines
69 and 104): a bare `SystemExit` with no message and no attached trace. -/
def sysExitSentinel : ExcValue :=
  { isSystemExit := true, message := "", tracebackList := none }

/-- Outcome of one `Connection.send` call on the pipe: it either returns, or
raises an `OSError` (this includes `BrokenPipeError` and `IOError`) carrying
the given errno. -/
inductive SendOutcome
  | ok
  | oserr (eno : Nat)
deriving DecidableEq, Repr

/-- Result of the parent's `self.__pipe.recv()` call (base.py line 84): either
a message arrives, or the call raises `EOFError` (channel closed with nothing
buffered) carrying the given message text. -/
inductive RecvResult
  | msg (v : ExcValue)
  | eof (emsg : String)
deriving DecidableEq, Repr

/-- Observable actions of the parent process inside `__exit__`
(base.py lines 81-117), in program order. -/
inductive PEvent
  | recvCall
  | waitpid
  | runExceptionCleanup
  | runCleanup
  | setExcepthook
  | pipeSend (v : ExcValue)
deriving DecidableEq, Repr

/-- How the parent's `__exit__` terminates: `returnTrue` is `return True`
(which makes the `with` statement suppress the in-flight exception), and
`raises v` means the exception object `v` propagates out of `__exit__`. -/
inductive POutcome
  | returnTrue
  | raises (v : ExcValue)
deriving DecidableEq, Repr

/-- An `OSError` with the given errno escaping from an unguarded or
re-raising pipe send, as the exception object seen by the caller. -/
def osError (eno : Nat) : ExcValue :=
  { isSystemExit := false, message := "OSError errno " ++ toString eno,
    tracebackList := none }

/-- Parent-process branch of `WithParentSkip.__exit__` (base.py lines 81-117,
with `self.childpid` set, so the `childpid is None` block at lines 102-111 is
skipped).  `gateSignal` is the test `exc_type is self.ParentException`
(line 82); `excValue` is `exc_value` for the `elif` at line 94; `recv` is the
result of `self.__pipe.recv()` (line 84); `parentTrace` is
`traceback.format_exc()` at line 99; `sendOut` is the outcome of the
unguarded `self.__pipe.send(exc_value)` at line 100.  Returns the ordered
event list and how the call terminates. -/
def parentExit (gateSignal : Bool) (excValue : Option ExcValue)
    (recv : RecvResult) (parentTrace : String) (sendOut : SendOutcome) :
    List PEvent × POutcome :=
  if gateSignal then
    -- lines 83-86: recv, with EOFError converted to SystemExit(e)
    let exception : ExcValue :=
      match recv with
      | RecvResult.msg v => v
      | RecvResult.eof emsg =>
          { isSystemExit := true, message := emsg, tracebackList := none }
    if exception.isSystemExit then
      -- fall through to lines 113-117: waitpid, cleanup, return True
      ([PEvent.recvCall, PEvent.waitpid, PEvent.runCleanup],
        POutcome.returnTrue)
    else
      -- lines 88-92: waitpid, exception_cleanup, install excepthook, raise
      ([PEvent.recvCall, PEvent.waitpid, PEvent.runExceptionCleanup,
        PEvent.setExcepthook], POutcome.raises exception)
  else
    match excValue with
    | some v =>
        -- lines 94-100: attach __traceback_list__ and send to the child;
        -- the send is not wrapped in any handler
        let v' := { v with tracebackList := some parentTrace }
        match sendOut with
        | SendOutcome.ok =>
            ([PEvent.pipeSend v', PEvent.waitpid, PEvent.runCleanup],
              POutcome.returnTrue)
        | SendOutcome.oserr eno => ([], POutcome.raises (osError eno))
    | none =>
        -- lines 113-117: waitpid, cleanup, return True
        ([PEvent.waitpid, PEvent.runCleanup], POutcome.returnTrue)

/-- Static method `WithParentSkip.__excepthook` (base.py lines 119-125): the
text it writes to stderr is the exception's `__traceback_list__` when the
attribute is present, otherwise the rendering of the parent-side traceback
object (`traceback.print_tb(exc_traceback)`). -/
def excepthookOutput (v : ExcValue) (parentTb : String) : String :=
  match v.tracebackList with
  | some t => t
  | none => parentTb

/-- State of the process-global `sys.excepthook` variable: the interpreter
default, or `WithParentSkip.__excepthook` after the assignment at line 91. -/
inductive Hook
  | default
  | chrootHook
deriving DecidableEq, Repr

/-- Effect of the parent's event trace on the global `sys.excepthook`:
`setExcepthook` installs the module's hook; no event of the module ever
restores the previous hook. -/
def applyEvents (h : Hook) : List PEvent → Hook
  | [] => h
  | PEvent.setExcepthook :: rest => applyEvents Hook.chrootHook rest
  | _ :: rest => applyEvents h rest

/-- Helper for `cleanupAfterReap`: `reaped` records whether a `waitpid` event
has already occurred. -/
def cleanupAfterReapGo (reaped : Bool) : List PEvent → Bool
  | [] => true
  | PEvent.waitpid :: rest => cleanupAfterReapGo true rest
  | PEvent.runCleanup :: rest => reaped && cleanupAfterReapGo reaped rest
  | PEvent.runExceptionCleanup :: rest => reaped && cleanupAfterReapGo reaped rest
  | _ :: rest => cleanupAfterReapGo reaped rest

/-- Checks that in an event trace every cleanup hook invocation (`cleanup` or
`exception_cleanup`) is strictly preceded by a `waitpid` event. -/
def cleanupAfterReap (evs : List PEvent) : Bool :=
  cleanupAfterReapGo false evs

/-- How the child process leaves the scoped region: `exit0` is `os._exit(0)`
(base.py lines 76 and 111); `escape eno` means an `OSError` with the given
errno raised by a pipe send propagated out of the region machinery (it was
neither caught nor swallowed), reaching the caller's code in the child. -/
inductive ChildFate
  | exit0
  | escape (eno : Nat)
deriving DecidableEq, Repr

/-- Inputs determining the child process's path through the region.
`childSetupRaises` is `some ex` when `self.child_setup()` (line 60) raises an
`Exception`-derived value `ex` (the handler at line 65 is `except Exception`,
so `SystemExit`/`KeyboardInterrupt` are outside this model), `none` when it
returns.  `setupTrace` is `traceback.format_exc()` at line 66.  `bodyRaises`
is `some ev` when the scoped block raises `ev` in the child (never the
parent-only `ParentException`), `none` when it completes.  `bodyTrace` is
`traceback.format_exc()` at line 99.  `sendOutcome n` is the outcome of the
n-th `send` the child performs on its pipe endpoint, counted from 0. -/
structure ChildEnv where
  childSetupRaises : Option ExcValue
  setupTrace : String
  bodyRaises : Option ExcValue
  bodyTrace : String
  sendOutcome : Nat → SendOutcome

/-- What the child did over the whole region: the messages successfully
written to the pipe in order, whether any statement of the scoped block's
body ran, and how the child left the region. -/
structure ChildRun where
  sent : List ExcValue
  bodyRan : Bool
  fate : ChildFate
deriving DecidableEq, Repr

/-- The guarded sentinel send shared by base.py lines 68-75 and 102-110:
`self.__pipe.send(SystemExit())` inside `try`, with `OSError`/`IOError`
swallowed when `ex.errno in (errno.EPIPE, errno.ESHUTDOWN)` and re-raised
otherwise, followed by `os._exit(0)` when no exception escapes.  `sent` and
`bodyRan` are the values accumulated so far. -/
def guardedSentinelExit (out : SendOutcome) (sent : List ExcValue)
    (bodyRan : Bool) : ChildRun :=
  match out with
  | SendOutcome.ok =>
      { sent := sent ++ [sysExitSentinel], bodyRan := bodyRan,
        fate := ChildFate.exit0 }
  | SendOutcome.oserr eno =>
      if eno = EPIPE ∨ eno = ESHUTDOWN then
        { sent := sent, bodyRan := bodyRan, fate := ChildFate.exit0 }
      else
        { sent := sent, bodyRan := bodyRan, fate := ChildFate.escape eno }

/-- Child-process side of one whole scoped region: the child branch of
`__enter__` (base.py lines 56-79), then — when `__enter__` returned — the
scoped block followed by `__exit__` running in the child (lines 81-111, with
`self.childpid is None`).  On a `child_setup` failure the exception gets
`__traceback_list__` attached and is sent by the unguarded send at line 67;
on a block failure the same happens via lines 99-100; in both cases the
guarded sentinel send and `os._exit(0)` follow.  On a clean block only the
guarded sentinel send and `os._exit(0)` run. -/
def childRegion (env : ChildEnv) : ChildRun :=
  match env.childSetupRaises with
  | some ex =>
      -- lines 65-76: ex.__traceback_list__ = format_exc(); pipe.send(ex)
      -- (unguarded), then the guarded SystemExit() send, then os._exit(0)
      let ex' := { ex with tracebackList := some env.setupTrace }
      match env.sendOutcome 0 with
      | SendOutcome.oserr eno =>
          { sent := [], bodyRan := false, fate := ChildFate.escape eno }
      | SendOutcome.ok =>
          guardedSentinelExit (env.sendOutcome 1) [ex'] false
  | none =>
      -- line 79: __enter__ returns self, the scoped block runs in the child
      match env.bodyRaises with
      | some ev =>
          -- __exit__ lines 94-100: attach __traceback_list__, unguarded send
          let ev' := { ev with tracebackList := some env.bodyTrace }
          match env.sendOutcome 0 with
          | SendOutcome.oserr eno =>
              { sent := [], bodyRan := true, fate := ChildFate.escape eno }
          | SendOutcome.ok =>
              -- lines 102-111: childpid is None in the child
              guardedSentinelExit (env.sendOutcome 1) [ev'] true
      | none =>
          -- __exit__ with exc_value None: straight to lines 102-111
          guardedSentinelExit (env.sendOutcome 0) [] true

/-- A trace function as handled by `__invoke_trace_funcs` (base.py lines
171-186): `exitContext` is the injected `self.__exit_context` (lines
150-152), which unconditionally raises `self.ParentException()`; `other`
stands for a trace function that returns normally. -/
inductive TraceFunc
  | exitContext
  | other
deriving DecidableEq, Repr

/-- Whether one trace function call raises `ParentException`:
`__exit_context` always does (line 152). -/
def traceFuncRaisesGate : TraceFunc → Bool
  | TraceFunc.exitContext => true
  | TraceFunc.other => false

/-- The loop of `__invoke_trace_funcs` (base.py lines 178-180): the injected
functions run in order and a raise aborts the loop (the `finally` block then
removes the hooks).  Returns whether `ParentException` escaped. -/
def invokeTraceFuncs : List TraceFunc → Bool
  | [] => false
  | f :: rest => if traceFuncRaisesGate f then true else invokeTraceFuncs rest

/-- Full parent-side behaviour of one `with` region (body statements are
abstract labels).  `__enter__` (lines 47-54) runs `parent_setup`, records the
child pid and pipe, and injects `[__exit_context]` as the frame's trace
functions.  When the frame resumes, CPython invokes the trace hook before the
first pending statement of the body, so `__invoke_trace_funcs` runs before
any body statement; if `ParentException` escapes there, no body statement
executes and the `with` machinery calls `__exit__` exactly once with the
`ParentException`; otherwise the body runs and `__exit__` is called with no
exception.  `return True` from `__exit__` suppresses the exception so control
reaches the statement after the block; a raise from `__exit__` propagates
instead. -/
structure ParentRegionRun where
  executedBody : List Nat
  exitCalls : Nat
  events : List PEvent
  outcome : POutcome
  reachedAfter : Nat
deriving DecidableEq, Repr

/-- Parent-side run of one whole region, from the fork to the statement after
the block: see `ParentRegionRun`. -/
def parentRegion (body : List Nat) (recv : RecvResult)
    (sendOut : SendOutcome) : ParentRegionRun :=
  let injected : List TraceFunc := [TraceFunc.exitContext]
  let gateFired := invokeTraceFuncs injected
  let executed := if gateFired then [] else body
  let pe := parentExit gateFired none recv "" sendOut
  { executedBody := executed
    exitCalls := 1
    events := pe.1
    outcome := pe.2
    reachedAfter :=
      match pe.2 with
      | POutcome.returnTrue => 1
      | POutcome.raises _ => 0 }

/-- A caller stack frame, identified abstractly. -/
structure Frame where
  id : Nat
deriving DecidableEq, Repr

/-- Instance state of `WithParentSkip` relevant to region entry: `childpid`
and pipe endpoint (overwritten by each `__enter__`, base.py lines 49-50), and
the `self.__frame` cache of `__get_context_frame` (line 205). -/
structure SepState where
  childpid : Option Nat
  pipeSet : Bool
  frameCache : Option Frame
deriving DecidableEq, Repr

/-- Method `WithParentSkip.__get_context_frame` (base.py lines 188-206): the
cached `self.__frame` is returned when present; otherwise the current context
frame is found by walking the stack, cached, and returned. -/
def getContextFrame (s : SepState) (current : Frame) : Frame × SepState :=
  match s.frameCache with
  | some f => (f, s)
  | none => (current, { s with frameCache := some current })

/-- Result of the parent branch of `__enter__`: the updated instance state,
the frame the gate was injected into, and whether the call raised an error
rejecting the entry (the source performs no such check and never raises on
this path). -/
structure EnterOut where
  state : SepState
  injectedInto : Frame
  raisesUsageError : Bool
deriving DecidableEq, Repr

/-- Parent branch of `WithParentSkip.__enter__` (base.py lines 43-54): a new
pipe is created, the fork returns `newpid`, `parent_setup()` runs, `childpid`
and the pipe endpoint are overwritten, and the gate is injected into the
frame returned by `__get_context_frame`.  Nothing inspects the prior state,
so a second entry proceeds the same way. -/
def parentEnter (s : SepState) (newpid : Nat) (current : Frame) : EnterOut :=
  let s1 := { s with childpid := some newpid, pipeSet := true }
  let fs := getContextFrame s1 current
  { state := fs.2, injectedInto := fs.1, raisesUsageError := false }

/-- Claim C1 counterexample: when `recv` raises `EOFError` (channel closed
with no message), `__exit__` does not raise any abnormal-termination failure:
it wraps the `EOFError` in `SystemExit(e)`, which passes the
`isinstance(exception, SystemExit)` test, so the parent reaps the child, runs
the ordinary `cleanup()` hook and returns `True` — a silent normal return. -/
theorem c1_eof_counterexample :
    parentExit true none (RecvResult.eof "EOF") "" SendOutcome.ok =
      ([PEvent.recvCall, PEvent.waitpid, PEvent.runCleanup],
        POutcome.returnTrue) := by
  rfl

/-- Claim C1 (amended): for every `EOFError` on the parent's receive, the
parent converts it to a `SystemExit` and takes the clean-exit path — it reaps
the child, runs `cleanup()`, and returns normally; it never hangs at the
receive point, but it also never raises a failure (a silent normal return,
not an "abnormal termination" error). -/
theorem c1_eof_silent_success (emsg tb : String) (so : SendOutcome) :
    parentExit true none (RecvResult.eof emsg) tb so =
      ([PEvent.recvCall, PEvent.waitpid, PEvent.runCleanup],
        POutcome.returnTrue) := by
  rfl

/-- Claim C2 counterexample: with a working channel and a failing
`child_setup`, the child sends two messages over the pipe — the transported
exception and then the clean-exit sentinel — not exactly one. -/
theorem c2_two_sends_counterexample :
    (childRegion
      { childSetupRaises :=
          some { isSystemExit := false, message := "boom", tracebackList := none }
        setupTrace := "tb", bodyRaises := none, bodyTrace := ""
        sendOutcome := fun _ => SendOutcome.ok }).sent =
      [{ isSystemExit := false, message := "boom", tracebackList := some "tb" },
        sysExitSentinel] := by
  rfl

/-- Claim C2 (amended): with a working channel, the child sends exactly one
message (the clean-exit sentinel) when `child_setup` and the scoped block
both complete; on any child-side failure it sends exactly two — the
transported exception (with `__traceback_list__` attached) followed by the
clean-exit sentinel.  It never sends zero messages and never more than two. -/
theorem c2_child_sends_characterized (csr br : Option ExcValue)
    (st bt : String) :
    (childRegion
      { childSetupRaises := csr, setupTrace := st
        bodyRaises := br, bodyTrace := bt
        sendOutcome := fun _ => SendOutcome.ok }).sent =
      match csr with
      | some ex => [{ ex with tracebackList := some st }, sysExitSentinel]
      | none =>
          match br with
          | some ev => [{ ev with tracebackList := some bt }, sysExitSentinel]
          | none => [sysExitSentinel] := by
  cases csr <;> cases br <;> rfl

/-- Claim C3: when the parent's receive returns a real transported exception
(not a `SystemExit` sentinel), `__exit__` reaps the child first
(`os.waitpid`), then runs `exception_cleanup()` exactly once, then installs
the custom excepthook and re-raises the transported exception unchanged —
still carrying the child's pre-rendered `__traceback_list__` text — and that
hook displays the child's trace text, not the parent's own traceback. -/
theorem c3_reap_then_cleanup_then_reraise (m : String) (tl : Option String)
    (t tb ptb : String) (so : SendOutcome) :
    parentExit true none
        (RecvResult.msg
          { isSystemExit := false, message := m, tracebackList := tl }) tb so =
      ([PEvent.recvCall, PEvent.waitpid, PEvent.runExceptionCleanup,
        PEvent.setExcepthook],
        POutcome.raises
          { isSystemExit := false, message := m, tracebackList := tl })
    ∧ excepthookOutput
        { isSystemExit := false, message := m, tracebackList := some t }
        ptb = t := by
  exact ⟨rfl, rfl⟩

/-- Claim C4 counterexample: entering a separator whose region already
terminated (child pid recorded, frame cached from the first entry) is not
rejected with a usage error: `__enter__` silently forks again, overwrites
`childpid` with the new pid, and injects the gate into the stale cached frame
from the first entry instead of the current one. -/
theorem c4_reentry_counterexample :
    parentEnter { childpid := some 5, pipeSet := true, frameCache := some ⟨1⟩ }
        7 ⟨2⟩ =
      { state := { childpid := some 7, pipeSet := true, frameCache := some ⟨1⟩ }
        injectedInto := ⟨1⟩, raisesUsageError := false } := by
  rfl

/-- Claim C4 (amended): re-entry is never rejected: the parent branch of
`__enter__` performs no prior-use check and raises no usage error on any
instance state; it overwrites `childpid` with the new pid, and
`__get_context_frame` returns the cached frame from the first entry when one
exists (falling back to the current frame only on first use), so stale
process and frame state is silently reused. -/
theorem c4_reentry_not_rejected (s : SepState) (pid : Nat) (cur : Frame) :
    (parentEnter s pid cur).raisesUsageError = false
    ∧ (parentEnter s pid cur).state.childpid = some pid
    ∧ (parentEnter s pid cur).injectedInto = s.frameCache.getD cur
    ∧ (parentEnter s pid cur).state.frameCache =
        some (s.frameCache.getD cur) := by
  cases s with
  | mk c p fc => cases fc <;> exact ⟨rfl, rfl, rfl, rfl⟩

/-- Claim C5: in the parent, the injected `__exit_context` trace function
raises `ParentException` before the first statement of the scoped block, so
no body statement ever executes; the `with` machinery reaches `__exit__`
(the exit point) exactly once; and when the region completes without
re-raising a transported failure (e.g. the child sent the clean-exit
sentinel), control reaches the statement after the block exactly once, as if
the block had completed normally. -/
theorem c5_parent_never_runs_body (body : List Nat) (recv : RecvResult)
    (so : SendOutcome) (m : String) (tl : Option String) :
    (parentRegion body recv so).executedBody = []
    ∧ (parentRegion body recv so).exitCalls = 1
    ∧ (parentRegion body
        (RecvResult.msg
          { isSystemExit := true, message := m, tracebackList := tl })
        so).reachedAfter = 1 := by
  exact ⟨rfl, rfl, rfl⟩

/-- Claim C6: when `child_setup()` raises in the child (and the channel
accepts the writes), the exception is sent over the pipe with its rendered
`traceback.format_exc()` text attached as `__traceback_list__`, the child
then terminates via `os._exit(0)`, and no statement of the scoped block's
body ever runs in the child. -/
theorem c6_child_setup_failure (ex : ExcValue) (st bt : String)
    (br : Option ExcValue) :
    childRegion
        { childSetupRaises := some ex, setupTrace := st
          bodyRaises := br, bodyTrace := bt
          sendOutcome := fun _ => SendOutcome.ok } =
      { sent := [{ ex with tracebackList := some st }, sysExitSentinel]
        bodyRan := false, fate := ChildFate.exit0 } := by
  rfl

/-- Claim C7: on every path through the parent's `__exit__`, every run of a
cleanup hook (`cleanup` or `exception_cleanup`) is strictly preceded by an
`os.waitpid` reap of the child; and on every path that does not abort in an
unguarded pipe-send failure, a reap does occur before the call terminates. -/
theorem c7_reap_strictly_before_cleanup (gs : Bool) (ev : Option ExcValue)
    (recv : RecvResult) (tb : String) (so : SendOutcome) :
    cleanupAfterReap (parentExit gs ev recv tb so).1 = true
    ∧ PEvent.waitpid ∈ (parentExit gs ev recv tb SendOutcome.ok).1 := by
  constructor
  · cases gs with
    | false => cases ev <;> cases so <;> rfl
    | true =>
        cases recv with
        | msg v =>
            rcases v with ⟨se, vm, vtl⟩
            cases se <;> rfl
        | eof e => rfl
  · cases gs with
    | false => cases ev <;> simp [parentExit, cleanupAfterReap]
    | true =>
        cases recv with
        | msg v =>
            rcases v with ⟨se, vm, vtl⟩
            cases se <;> simp [parentExit]
        | eof e => simp [parentExit]

/-- Claim C8: when an exception other than `ParentException` reaches the
parent's `__exit__` and the pipe write succeeds, the exception — with the
parent-side rendered trace attached as `__traceback_list__` — is sent to the
child over the channel, `__exit__` returns `True` (so the exception is
suppressed rather than propagating out of the region), and the parent still
reaps the child strictly before running `cleanup()`. -/
theorem c8_parent_exception_forwarded (se : Bool) (m : String)
    (tl : Option String) (tb : String) (recv : RecvResult) :
    parentExit false
        (some { isSystemExit := se, message := m, tracebackList := tl })
        recv tb SendOutcome.ok =
      ([PEvent.pipeSend
          { isSystemExit := se, message := m, tracebackList := some tb },
        PEvent.waitpid, PEvent.runCleanup], POutcome.returnTrue) := by
  rfl

/-- Claim C9 counterexample: the child's send of a transported exception is
not guarded: with `child_setup` failing and the channel already broken
(EPIPE), the `OSError` raised by `self.__pipe.send(ex)` escapes out of the
child's region machinery instead of being swallowed, and the child does not
reach `os._exit(0)`. -/
theorem c9_unguarded_send_counterexample :
    childRegion
        { childSetupRaises :=
            some { isSystemExit := false, message := "boom", tracebackList := none }
          setupTrace := "tb", bodyRaises := none, bodyTrace := ""
          sendOutcome := fun _ => SendOutcome.oserr 32 } =
      { sent := [], bodyRan := false, fate := ChildFate.escape 32 } := by
  rfl

/-- Claim C9 (amended): only the clean-exit sentinel sends are guarded: a
broken-pipe failure there with errno `EPIPE` or `ESHUTDOWN` is swallowed and
the child still exits via `os._exit(0)` (on both the failure path and the
clean path), while any other errno on the sentinel send is re-raised and
escapes; the unguarded sends of a transported exception — after a
`child_setup` failure (base.py line 67) and after a scoped-block failure
(line 100) alike — let even an `EPIPE` failure escape out of the child's
region machinery. -/
theorem c9_only_sentinel_send_guarded (ex : ExcValue) (st bt : String)
    (br : Option ExcValue) :
    childRegion
        { childSetupRaises := some ex, setupTrace := st
          bodyRaises := br, bodyTrace := bt
          sendOutcome := fun n =>
            if n = 0 then SendOutcome.ok else SendOutcome.oserr EPIPE } =
      { sent := [{ ex with tracebackList := some st }]
        bodyRan := false, fate := ChildFate.exit0 }
    ∧ childRegion
        { childSetupRaises := some ex, setupTrace := st
          bodyRaises := br, bodyTrace := bt
          sendOutcome := fun n =>
            if n = 0 then SendOutcome.ok else SendOutcome.oserr ESHUTDOWN } =
      { sent := [{ ex with tracebackList := some st }]
        bodyRan := false, fate := ChildFate.exit0 }
    ∧ childRegion
        { childSetupRaises := some ex, setupTrace := st
          bodyRaises := br, bodyTrace := bt
          sendOutcome := fun n =>
            if n = 0 then SendOutcome.ok else SendOutcome.oserr 9 } =
      { sent := [{ ex with tracebackList := some st }]
        bodyRan := false, fate := ChildFate.escape 9 }
    ∧ childRegion
        { childSetupRaises := some ex, setupTrace := st
          bodyRaises := br, bodyTrace := bt
          sendOutcome := fun _ => SendOutcome.oserr EPIPE } =
      { sent := [], bodyRan := false, fate := ChildFate.escape EPIPE }
    ∧ childRegion
        { childSetupRaises := none, setupTrace := st
          bodyRaises := some ex, bodyTrace := bt
          sendOutcome := fun _ => SendOutcome.oserr EPIPE } =
      { sent := [], bodyRan := true, fate := ChildFate.escape EPIPE }
    ∧ childRegion
        { childSetupRaises := none, setupTrace := st
          bodyRaises := some ex, bodyTrace := bt
          sendOutcome := fun n =>
            if n = 0 then SendOutcome.ok else SendOutcome.oserr EPIPE } =
      { sent := [{ ex with tracebackList := some bt }]
        bodyRan := true, fate := ChildFate.exit0 }
    ∧ childRegion
        { childSetupRaises := none, setupTrace := st
          bodyRaises := none, bodyTrace := bt
          sendOutcome := fun _ => SendOutcome.oserr EPIPE } =
      { sent := [], bodyRan := true, fate := ChildFate.exit0 } := by
  exact ⟨rfl, rfl, rfl, rfl, rfl, rfl, rfl⟩

/-- Claim C10: on the failure path the parent's region ends with the
assignment `sys.excepthook = self.__excepthook` immediately before the
re-raise; running the region's complete event trace over the global hook
state leaves the custom hook installed (no event of the module ever restores
the original), so the mutation persists in the parent after the region has
finished; and the installed hook displays the exception's attached
`__traceback_list__` text. -/
theorem c10_excepthook_overwritten_persists (body : List Nat) (m t : String)
    (so : SendOutcome) (ptb : String) :
    (parentRegion body
        (RecvResult.msg
          { isSystemExit := false, message := m, tracebackList := some t })
        so).events =
      [PEvent.recvCall, PEvent.waitpid, PEvent.runExceptionCleanup,
        PEvent.setExcepthook]
    ∧ (parentRegion body
        (RecvResult.msg
          { isSystemExit := false, message := m, tracebackList := some t })
        so).outcome =
      POutcome.raises
        { isSystemExit := false, message := m, tracebackList := some t }
    ∧ applyEvents Hook.default
        (parentRegion body
          (RecvResult.msg
            { isSystemExit := false, message := m, tracebackList := some t })
          so).events = Hook.chrootHook
    ∧ excepthookOutput
        { isSystemExit := false, message := m, tracebackList := some t }
        ptb = t := by
  exact ⟨rfl, rfl, rfl, rfl⟩

end Chroot
